import Mathlib

/-!
Verification of the realtime collaborative whiteboard: a shallow embedding of
the Socket.io relay server (src/server/server.js) and of the client drawing
engine / remote-operation applier (client App.jsx) together with proofs of the
protocol and history properties stated in the specification.
-/

set_option autoImplicit false

namespace WB

/-- Socket event names handled by the server (src/server/server.js). -/
inductive SEvent
  | joinRoom
  | startDraw
  | drawing
  | endDraw
  | cursorMove
  | startShape
  | drawingShape
  | endShape
  | clearCanvas
  | clearEv
  | drawText
  | undoEv
  | redoEv
  | userJoined
  | userLeft
deriving DecidableEq

/-- An object-shaped wire payload: the union of the fields the whiteboard
protocol ever places in a message object (`roomId` plus drawing data).  The
server reads only `roomId`; the other fields are opaque to it. -/
structure ObjPayload where
  roomId : String
  x : Int
  y : Int
  color : String
  size : Nat
  tool : String
  text : String
  fontSize : Nat
deriving DecidableEq

/-- Wire data attached to an emitted or received socket event.  `obj` is an
object payload, `str` a bare string (the `clear` event sends the room id as a
plain string), `cursor` and `user` are the server-constructed payloads of the
rewriting handlers, and `empty` marks an emission that carries no data at
all (the server re-emits `clear-canvas` without arguments). -/
inductive WireData
  | obj (p : ObjPayload)
  | str (s : String)
  | cursor (userId : String) (x y : Int) (color : String)
  | user (userId : String)
  | empty
deriving DecidableEq

/-- One server-side emission: the room it is addressed to via
`socket.to(room)`, the event name, and the payload it carries. -/
structure Emission where
  room : String
  event : SEvent
  payload : WireData
deriving DecidableEq

/-- Models the per-event relay handlers registered in
`io.on("connection", ...)` (src/server/server.js): for an incoming
`(event, data)` from socket `senderId`, the emission the server performs
through `socket.to(...)`.  `none` when the handler shape does not match the
protocol (the protocol only ever sends the payload shapes matched here).
Note that the `clear-canvas` handler emits the event with no payload, the
`clear` handler forwards the bare room-id string, and `cursor-move`, `undo`
and `redo` rewrite the payload to include the sender's connection id. -/
def serverHandle (senderId : String) (ev : SEvent) (d : WireData) :
    Option Emission :=
  match ev, d with
  | .joinRoom, .str r => some ⟨r, .userJoined, .user senderId⟩
  | .startDraw, .obj p => some ⟨p.roomId, .startDraw, .obj p⟩
  | .drawing, .obj p => some ⟨p.roomId, .drawing, .obj p⟩
  | .endDraw, .obj p => some ⟨p.roomId, .endDraw, .obj p⟩
  | .cursorMove, .obj p =>
      some ⟨p.roomId, .cursorMove, .cursor senderId p.x p.y p.color⟩
  | .startShape, .obj p => some ⟨p.roomId, .startShape, .obj p⟩
  | .drawingShape, .obj p => some ⟨p.roomId, .drawingShape, .obj p⟩
  | .endShape, .obj p => some ⟨p.roomId, .endShape, .obj p⟩
  | .clearCanvas, .obj p => some ⟨p.roomId, .clearCanvas, .empty⟩
  | .clearEv, .str r => some ⟨r, .clearEv, .str r⟩
  | .drawText, .obj p => some ⟨p.roomId, .drawText, .obj p⟩
  | .undoEv, .obj p => some ⟨p.roomId, .undoEv, .user senderId⟩
  | .redoEv, .obj p => some ⟨p.roomId, .redoEv, .user senderId⟩
  | _, _ => none

/-- Modelled from the spec: the transport primitive used by every relay
handler.  `socket.to(room).emit(...)` is a Socket.io library primitive that
is not part of this repository; per the specification's transport layer it
"supports room-scoped broadcast primitives (join room, emit to room excluding
sender)", so its recipient set is the room's current membership with the
sending connection removed. -/
def socketTo (rooms : String → List String) (senderId room : String) :
    List String :=
  (rooms room).filter (fun c => c ≠ senderId)

/-- The nine drawing-operation relay events of the protocol table. -/
def drawingRelayEvents : List SEvent :=
  [.startDraw, .drawing, .endDraw, .startShape, .drawingShape, .endShape,
   .clearEv, .clearCanvas, .drawText]

/-- The relay events whose handler forwards the received payload verbatim:
every drawing relay event except `clear-canvas`. -/
def verbatimRelayEvents : List SEvent :=
  [.startDraw, .drawing, .endDraw, .startShape, .drawingShape, .endShape,
   .clearEv, .drawText]

/-- One drawing command issued to the 2D rendering context, as the client
issues them (App.jsx).  The visual content of the surface is determined by
the sequence of commands applied since the surface was last blank. -/
inductive CtxCmd
  | beginPath
  | moveTo (x y : Int)
  | lineTo (x y : Int)
  | setStrokeStyle (c : String)
  | setLineWidth (w : Nat)
  | stroke
  | closePath
  | setFont (f : String)
  | setFillStyle (c : String)
  | fillText (text : String) (x y : Int)
deriving DecidableEq

/-- The client's raster surface: its pixel dimensions together with the
drawing commands applied since it was last blank.  Two equal `Canvas` values
have identical pixel content; `clearRect(0,0,w,h)` wipes the whole surface,
which resets the command list. -/
structure Canvas where
  width : Nat
  height : Nat
  cmds : List CtxCmd
deriving DecidableEq

/-- A full-surface `ctx.clearRect(0, 0, canvas.width, canvas.height)`: the
surface becomes blank (no drawn content), dimensions unchanged. -/
def clearRect (c : Canvas) : Canvas :=
  { c with cmds := [] }

/-- Applying further context commands to the surface. -/
def applyCmds (c : Canvas) (cs : List CtxCmd) : Canvas :=
  { c with cmds := c.cmds ++ cs }

/-- A blank canvas of the given pixel dimensions. -/
def blankCanvas (w h : Nat) : Canvas :=
  ⟨w, h, []⟩

/-- The client's tool enum (`TOOLS` in App.jsx). -/
inductive Tool
  | brush
  | eraser
  | text
  | line
  | rectangle
  | circle
  | arrow
deriving DecidableEq

/-- The string name of a tool, as placed in the `tool` field of emitted
payloads. -/
def toolName : Tool → String
  | .brush => "brush"
  | .eraser => "eraser"
  | .text => "text"
  | .line => "line"
  | .rectangle => "rectangle"
  | .circle => "circle"
  | .arrow => "arrow"

/-- The client-side state relevant to the verified properties: the raster
surface (`canvasRef`/`ctxRef`), the snapshot history (`historyRef`), the
joined room, the selected color, size and tool, and the text-tool state
(`textInput`, `textPosition`, `isPlacingText`). -/
structure ClientState where
  canvas : Canvas
  history : List Canvas
  roomId : String
  color : String
  size : Nat
  tool : Tool
  textInput : String
  textPosition : Int × Int
  isPlacingText : Bool
deriving DecidableEq

/-- The history update performed by `saveCanvas` (App.jsx): push the current
snapshot, then `shift()` the oldest entry away when the length exceeds 30. -/
def saveCanvasHist (h : List Canvas) (snap : Canvas) : List Canvas :=
  let h2 := h ++ [snap]
  if h2.length > 30 then h2.tail else h2

/-- `saveCanvas`: capture the current surface (`canvas.toDataURL`) and push
it onto the snapshot history with the 30-entry bound. -/
def saveCanvas (st : ClientState) : ClientState :=
  { st with history := saveCanvasHist st.history st.canvas }

/-- `handleUndo` (App.jsx): when more than one snapshot is present, pop the
most recent one and restore the new top of the stack onto the surface;
otherwise do nothing. -/
def handleUndo (st : ClientState) : ClientState :=
  if 1 < st.history.length then
    let h := st.history.dropLast
    match h.getLast? with
    | some prev => { st with history := h, canvas := prev }
    | none => { st with history := h }
  else st

/-- `resizeCanvas` (App.jsx): resize the surface to the new pixel dimensions
(`w*dpr` by `h*dpr`; the arguments here are the final pixel dimensions),
clear it, reset the snapshot history to empty and push one snapshot of the
now-blank surface via `saveCanvas`. -/
def resizeCanvas (w h : Nat) (st : ClientState) : ClientState :=
  saveCanvas { st with canvas := blankCanvas w h, history := [] }

/-- `clearBoard` (App.jsx): save a pre-clear snapshot, wipe the surface,
reset the text-tool state, emit `clear` with the room id, and save a
post-clear snapshot.  Returns the new state and the emitted room id. -/
def clearBoard (st : ClientState) : ClientState × String :=
  let st1 := saveCanvas st
  let st2 := { st1 with
    canvas := clearRect st1.canvas,
    textInput := "", isPlacingText := false }
  (saveCanvas st2, st.roomId)

/-- The commands `handleRemoteStart` issues for an incoming `start-draw`
payload: begin a path at the carried point with the carried color and size
(JS `data.color || "#000"` and `data.size || 3` defaulting included). -/
def remoteStartCmds (data : ObjPayload) : List CtxCmd :=
  [.beginPath, .moveTo data.x data.y,
   .setStrokeStyle (if data.color = "" then "#000" else data.color),
   .setLineWidth (if data.size = 0 then 3 else data.size)]

/-- The commands `handleRemoteDrawing` issues for an incoming `drawing`
payload: set the carried color and size, extend the path, stroke. -/
def remoteDrawingCmds (data : ObjPayload) : List CtxCmd :=
  [.setStrokeStyle (if data.color = "" then "#000" else data.color),
   .setLineWidth (if data.size = 0 then 3 else data.size),
   .lineTo data.x data.y, .stroke]

/-- The commands `handleRemoteText` issues for an incoming `draw-text`
payload: set the carried font size and color and draw the carried text at
the carried position. -/
def remoteTextCmds (data : ObjPayload) : List CtxCmd :=
  [.setFont (toString data.fontSize ++ "px Inter, sans-serif"),
   .setFillStyle data.color,
   .fillText data.text data.x data.y]

/-- `handleRemoteStart` as a state transition: ignore the message when it is
absent or its `roomId` differs from the joined room, otherwise render. -/
def handleRemoteStart (st : ClientState) (d : Option ObjPayload) :
    ClientState :=
  match d with
  | none => st
  | some data =>
      if data.roomId = st.roomId then
        { st with canvas := applyCmds st.canvas (remoteStartCmds data) }
      else st

/-- `handleRemoteDrawing` as a state transition. -/
def handleRemoteDrawing (st : ClientState) (d : Option ObjPayload) :
    ClientState :=
  match d with
  | none => st
  | some data =>
      if data.roomId = st.roomId then
        { st with canvas := applyCmds st.canvas (remoteDrawingCmds data) }
      else st

/-- `handleRemoteEnd` as a state transition: close the current path. -/
def handleRemoteEnd (st : ClientState) (d : Option ObjPayload) :
    ClientState :=
  match d with
  | none => st
  | some data =>
      if data.roomId = st.roomId then
        { st with canvas := applyCmds st.canvas [.closePath] }
      else st

/-- `handleRemoteText` as a state transition. -/
def handleRemoteText (st : ClientState) (d : Option ObjPayload) :
    ClientState :=
  match d with
  | none => st
  | some data =>
      if data.roomId = st.roomId then
        { st with canvas := applyCmds st.canvas (remoteTextCmds data) }
      else st

/-- The `onClear` listener for the remote `clear` event (App.jsx): ignore it
when the carried room differs from the joined room, otherwise wipe the
surface and push a snapshot of the cleared surface. -/
def onClear (room : String) (st : ClientState) : ClientState :=
  if room = st.roomId then
    saveCanvas { st with canvas := clearRect st.canvas }
  else st

/-- The stroke color `handlePointerDown` and the brush/eraser branch of
`handlePointerMove` set on the context:
`tool === TOOLS.ERASER ? "#ffffff" : color`. -/
def localStrokeStyle (color : String) (tool : Tool) : String :=
  if tool = Tool.eraser then "#ffffff" else color

/-- The line width `handlePointerDown` and the brush/eraser branch of
`handlePointerMove` set on the context:
`tool === TOOLS.ERASER ? size * 3 : size`. -/
def localLineWidth (size : Nat) (tool : Tool) : Nat :=
  if tool = Tool.eraser then size * 3 else size

/-- The `start-draw` payload emitted by `handlePointerDown` (App.jsx): for
the eraser the color is the hard-coded `"#ffffff"` and the size is the
selected size tripled. -/
def startDrawEmit (roomId color : String) (size : Nat) (tool : Tool)
    (x y : Int) : ObjPayload :=
  { roomId := roomId, x := x, y := y,
    color := if tool = Tool.eraser then "#ffffff" else color,
    size := if tool = Tool.eraser then size * 3 else size,
    tool := toolName tool, text := "", fontSize := 0 }

/-- The `drawing` payload emitted by `handlePointerMove` (App.jsx):
`{ roomId, x, y, color, size, tool }` — the raw selected color and size,
with no eraser adjustment. -/
def drawingEmit (roomId color : String) (size : Nat) (tool : Tool)
    (x y : Int) : ObjPayload :=
  { roomId := roomId, x := x, y := y, color := color, size := size,
    tool := toolName tool, text := "", fontSize := 0 }

/-- The commands the brush/eraser branch of `handlePointerDown` issues on
the local context. -/
def pointerDownCmds (color : String) (size : Nat) (tool : Tool)
    (x y : Int) : List CtxCmd :=
  [.beginPath, .moveTo x y,
   .setStrokeStyle (localStrokeStyle color tool),
   .setLineWidth (localLineWidth size tool)]

/-- The commands the brush/eraser branch of `handlePointerMove` issues on
the local context. -/
def pointerMoveCmds (color : String) (size : Nat) (tool : Tool)
    (x y : Int) : List CtxCmd :=
  [.lineTo x y,
   .setStrokeStyle (localStrokeStyle color tool),
   .setLineWidth (localLineWidth size tool),
   .stroke]

/-- The key handler of the text-tool input (App.jsx): on Enter, when the
trimmed input is non-empty and both placement coordinates are truthy
(non-zero), render the text with the selected color and `size * 4` font,
push a snapshot, emit `draw-text`, and reset the pending input; otherwise do
nothing.  `dpr` is `window.devicePixelRatio || 1`.  Returns the new state
and the emitted payload, if any. -/
def textKeyDown (st : ClientState) (key : String) (dpr : Int) :
    ClientState × Option ObjPayload :=
  if key = "Enter" ∧ st.textInput.trim ≠ "" ∧
      st.textPosition.1 ≠ 0 ∧ st.textPosition.2 ≠ 0 then
    let cmds : List CtxCmd :=
      [.setFont (toString (st.size * 4) ++ "px Inter, sans-serif"),
       .setFillStyle st.color,
       .fillText st.textInput (st.textPosition.1 * dpr)
         (st.textPosition.2 * dpr)]
    let st1 := saveCanvas { st with canvas := applyCmds st.canvas cmds }
    let msg : ObjPayload :=
      { roomId := st.roomId, x := st.textPosition.1 * dpr,
        y := st.textPosition.2 * dpr, color := st.color, size := 0,
        tool := "", text := st.textInput, fontSize := st.size * 4 }
    ({ st1 with textInput := "", isPlacingText := false }, some msg)
  else (st, none)

/-- C1: for every relay of a drawing operation (start-draw, drawing,
end-draw, start-shape, drawing-shape, end-shape, clear, clear-canvas,
draw-text), the originating connection is never among the recipients: every
such handler emits through `socket.to(room)`, whose recipient set excludes
the sending connection, so the sender never receives its own emission
back. -/
theorem relay_never_echoes_sender (rooms : String → List String)
    (senderId : String) (ev : SEvent) (d : WireData) (e : Emission)
    (_hev : ev ∈ drawingRelayEvents)
    (_hrelay : serverHandle senderId ev d = some e) :
    senderId ∉ socketTo rooms senderId e.room := by
  intro hmem
  rcases List.mem_filter.mp hmem with ⟨_, hne⟩
  simp at hne

/-- Witness for C1: in a room `"demo1"` with members `A` and `B`, the relay
of a concrete `start-draw` from `A` never delivers back to `A`. -/
theorem relay_never_echoes_sender_witness :
    "A" ∉ socketTo (fun _ => ["A", "B"]) "A" "demo1" :=
  relay_never_echoes_sender (fun _ => ["A", "B"]) "A" SEvent.startDraw
    (WireData.obj ⟨"demo1", 10, 10, "#ef4444", 4, "brush", "", 0⟩)
    ⟨"demo1", SEvent.startDraw,
      WireData.obj ⟨"demo1", 10, 10, "#ef4444", 4, "brush", "", 0⟩⟩
    (by decide) rfl

/-- C2 counterexample: the claim that every drawing-relay event forwards its
payload verbatim fails at `clear-canvas`; the server receives an object
payload carrying the room id but re-emits the event with no payload at
all. -/
theorem clear_canvas_payload_dropped :
    SEvent.clearCanvas ∈ drawingRelayEvents ∧
    serverHandle "A" SEvent.clearCanvas
        (WireData.obj ⟨"demo1", 0, 0, "", 0, "", "", 0⟩)
      = some ⟨"demo1", SEvent.clearCanvas, WireData.empty⟩ ∧
    WireData.empty ≠ WireData.obj ⟨"demo1", 0, 0, "", 0, "", "", 0⟩ := by
  refine ⟨by decide, rfl, by decide⟩

/-- C2 amended: every drawing-relay handler except `clear-canvas`
(start-draw, drawing, end-draw, start-shape, drawing-shape, end-shape,
clear, draw-text) delivers exactly the payload it received, addressed to the
room the payload names; the `clear-canvas` handler relays only the event
name, with no payload. -/
theorem relay_forwards_payload_verbatim_except_clear_canvas :
    (∀ (senderId : String) (ev : SEvent) (d : WireData) (e : Emission),
        ev ∈ verbatimRelayEvents → serverHandle senderId ev d = some e →
        e.payload = d) ∧
    (∀ (senderId : String) (p : ObjPayload),
        serverHandle senderId SEvent.clearCanvas (WireData.obj p)
          = some ⟨p.roomId, SEvent.clearCanvas, WireData.empty⟩) := by
  constructor
  · intro senderId ev d e hev hh
    fin_cases hev <;> cases d <;>
      simp only [serverHandle] at hh <;>
      first
        | exact Option.noConfusion hh
        | (cases Option.some.inj hh; rfl)
  · intro senderId p
    rfl

/-- Witness for C2's amended theorem: a concrete `drawing` payload is
forwarded verbatim. -/
theorem relay_forwards_payload_verbatim_witness :
    (Emission.mk "demo1" SEvent.drawing
        (WireData.obj ⟨"demo1", 50, 50, "#ef4444", 4, "brush", "", 0⟩)).payload
      = WireData.obj ⟨"demo1", 50, 50, "#ef4444", 4, "brush", "", 0⟩ :=
  relay_forwards_payload_verbatim_except_clear_canvas.1 "A" SEvent.drawing
    (WireData.obj ⟨"demo1", 50, 50, "#ef4444", 4, "brush", "", 0⟩)
    ⟨"demo1", SEvent.drawing,
      WireData.obj ⟨"demo1", 50, 50, "#ef4444", 4, "brush", "", 0⟩⟩
    (by decide) rfl

/-- C5: with the eraser active and the user's selection color `"#ef4444"`,
size 4, the engine renders both the pointer-down and the pointer-move stroke
with `"#ffffff"` at width 12, and the emitted `start-draw` carries
`"#ffffff"`/12 — but the emitted `drawing` payload carries the raw selected
color `"#ef4444"` and unmultiplied size 4, contradicting the claim that
every emitted stroke operation uses the background color and tripled
width. -/
theorem eraser_move_emission_uses_raw_settings :
    localStrokeStyle "#ef4444" Tool.eraser = "#ffffff" ∧
    localLineWidth 4 Tool.eraser = 12 ∧
    pointerDownCmds "#ef4444" 4 Tool.eraser 10 10
      = [.beginPath, .moveTo 10 10, .setStrokeStyle "#ffffff",
         .setLineWidth 12] ∧
    pointerMoveCmds "#ef4444" 4 Tool.eraser 20 20
      = [.lineTo 20 20, .setStrokeStyle "#ffffff", .setLineWidth 12,
         .stroke] ∧
    (startDrawEmit "demo1" "#ef4444" 4 Tool.eraser 10 10).color
      = "#ffffff" ∧
    (startDrawEmit "demo1" "#ef4444" 4 Tool.eraser 10 10).size = 12 ∧
    (drawingEmit "demo1" "#ef4444" 4 Tool.eraser 20 20).color
      = "#ef4444" ∧
    (drawingEmit "demo1" "#ef4444" 4 Tool.eraser 20 20).size = 4 := by
  refine ⟨rfl, rfl, rfl, rfl, rfl, rfl, rfl, rfl⟩

/-- C7: every incoming remote operation (start-draw, drawing, end-draw,
draw-text, clear) whose carried room differs from the joined room leaves the
client state — in particular the canvas and the snapshot history —
completely unchanged. -/
theorem remote_ops_other_room_ignored (st : ClientState)
    (data : ObjPayload) (room : String)
    (hdata : data.roomId ≠ st.roomId) (hroom : room ≠ st.roomId) :
    handleRemoteStart st (some data) = st ∧
    handleRemoteDrawing st (some data) = st ∧
    handleRemoteEnd st (some data) = st ∧
    handleRemoteText st (some data) = st ∧
    onClear room st = st := by
  refine ⟨?_, ?_, ?_, ?_, ?_⟩ <;>
    simp [handleRemoteStart, handleRemoteDrawing, handleRemoteEnd,
      handleRemoteText, onClear, hdata, hroom]

/-- Witness for C7: a concrete state joined to `"demo1"` is untouched by a
concrete operation addressed to `"other"`. -/
theorem remote_ops_other_room_ignored_witness :
    handleRemoteStart
        ⟨blankCanvas 800 600, [blankCanvas 800 600], "demo1", "#1e293b", 4,
          Tool.brush, "", (0, 0), false⟩
        (some ⟨"other", 10, 10, "#ef4444", 4, "brush", "", 0⟩)
      = ⟨blankCanvas 800 600, [blankCanvas 800 600], "demo1", "#1e293b", 4,
          Tool.brush, "", (0, 0), false⟩ :=
  (remote_ops_other_room_ignored
    ⟨blankCanvas 800 600, [blankCanvas 800 600], "demo1", "#1e293b", 4,
      Tool.brush, "", (0, 0), false⟩
    ⟨"other", 10, 10, "#ef4444", 4, "brush", "", 0⟩
    "other" (by decide) (by decide)).1

/-- C8: clearing is idempotent on the raster surface: a second full-surface
`clearRect` leaves the pixel content produced by the first one unchanged,
both for the primitive itself, for the remote `clear` handler applied twice,
and for the local `clearBoard` applied twice. -/
theorem clear_idempotent_on_canvas :
    (∀ c : Canvas, clearRect (clearRect c) = clearRect c) ∧
    (∀ (room : String) (st : ClientState),
        (onClear room (onClear room st)).canvas
          = (onClear room st).canvas) ∧
    (∀ st : ClientState,
        ((clearBoard (clearBoard st).1).1).canvas
          = ((clearBoard st).1).canvas) := by
  refine ⟨fun c => rfl, ?_, ?_⟩
  · intro room st
    by_cases h : room = st.roomId <;>
      simp [onClear, saveCanvas, clearRect, h]
  · intro st
    simp [clearBoard, saveCanvas, clearRect]

/-- C10: `resizeCanvas` (run on every window resize and on initial setup)
wipes the surface and replaces the whole snapshot history with exactly one
snapshot of the now-blank canvas; any previously drawn snapshot (one with
drawn content) is no longer in the history. -/
theorem resize_resets_history_to_single_blank (w h : Nat)
    (st : ClientState) :
    (resizeCanvas w h st).history = [blankCanvas w h] ∧
    (resizeCanvas w h st).canvas = blankCanvas w h ∧
    (resizeCanvas w h st).history.length = 1 ∧
    (∀ s ∈ st.history, s.cmds ≠ [] → s ∉ (resizeCanvas w h st).history) := by
  refine ⟨rfl, rfl, rfl, ?_⟩
  intro s _ hcmds hmem
  have hs : s = blankCanvas w h := by
    simpa [resizeCanvas, saveCanvas, saveCanvasHist] using hmem
  exact hcmds (by simp [hs, blankCanvas])

/-- Witness for C10: resizing a concrete state with a drawn snapshot leaves
a one-element history holding only the blank snapshot. -/
theorem resize_resets_history_witness :
    (resizeCanvas 800 600
        ⟨⟨800, 600, [CtxCmd.stroke]⟩, [⟨800, 600, [CtxCmd.stroke]⟩],
          "demo1", "#1e293b", 4, Tool.brush, "", (0, 0), false⟩).history
      = [blankCanvas 800 600] :=
  (resize_resets_history_to_single_blank 800 600
    ⟨⟨800, 600, [CtxCmd.stroke]⟩, [⟨800, 600, [CtxCmd.stroke]⟩],
      "demo1", "#1e293b", 4, Tool.brush, "", (0, 0), false⟩).1

/-- C6: for every incoming remote stroke or text operation addressed to the
joined room and carrying a non-empty color and a non-zero size, the receiver
renders with exactly the parameters carried in the message — independent of
the receiver's own selected color, size and tool, which appear nowhere in
the rendered commands. -/
theorem remote_render_uses_carried_parameters (st : ClientState)
    (data : ObjPayload) (hc : data.color ≠ "") (hs : data.size ≠ 0)
    (hr : data.roomId = st.roomId) :
    handleRemoteStart st (some data)
      = { st with canvas := applyCmds st.canvas
                    [.beginPath, .moveTo data.x data.y,
                     .setStrokeStyle data.color,
                     .setLineWidth data.size] } ∧
    handleRemoteDrawing st (some data)
      = { st with canvas := applyCmds st.canvas
                    [.setStrokeStyle data.color, .setLineWidth data.size,
                     .lineTo data.x data.y, .stroke] } ∧
    handleRemoteText st (some data)
      = { st with canvas := applyCmds st.canvas
                    [.setFont
                       (toString data.fontSize ++ "px Inter, sans-serif"),
                     .setFillStyle data.color,
                     .fillText data.text data.x data.y] } := by
  refine ⟨?_, ?_, ?_⟩ <;>
    simp [handleRemoteStart, handleRemoteDrawing, handleRemoteText,
      remoteStartCmds, remoteDrawingCmds, remoteTextCmds, hc, hs, hr]

/-- Witness for C6, the spec's example scenario: client B, joined to
`"demo1"` with its own selection `"#1e293b"`/9/eraser, receives a stroke
point at (50,50) carrying `"#ef4444"` size 4 and renders a line-to (50,50)
with stroke style `"#ef4444"` and width 4. -/
theorem remote_render_uses_carried_parameters_witness :
    handleRemoteDrawing
        ⟨blankCanvas 800 600, [blankCanvas 800 600], "demo1", "#1e293b", 9,
          Tool.eraser, "", (0, 0), false⟩
        (some ⟨"demo1", 50, 50, "#ef4444", 4, "brush", "", 0⟩)
      = ⟨applyCmds (blankCanvas 800 600)
            [.setStrokeStyle "#ef4444", .setLineWidth 4, .lineTo 50 50,
             .stroke],
          [blankCanvas 800 600], "demo1", "#1e293b", 9, Tool.eraser, "",
          (0, 0), false⟩ :=
  (remote_render_uses_carried_parameters
    ⟨blankCanvas 800 600, [blankCanvas 800 600], "demo1", "#1e293b", 9,
      Tool.eraser, "", (0, 0), false⟩
    ⟨"demo1", 50, 50, "#ef4444", 4, "brush", "", 0⟩
    (by decide) (by decide) rfl).2.1

/-- C9: the pending text placement is committed — rendered, snapshotted and
emitted as `draw-text` — exactly when the pressed key is Enter, the trimmed
input is non-empty and both placement coordinates are non-zero; in
particular a placement clicked at `x = 0` or `y = 0` makes Enter a complete
no-op: state unchanged (no rendering, no history push) and nothing
emitted. -/
theorem text_commit_requires_nonzero_position :
    (∀ (st : ClientState) (dpr : Int),
        st.textPosition.1 = 0 ∨ st.textPosition.2 = 0 →
        textKeyDown st "Enter" dpr = (st, none)) ∧
    (∀ (st : ClientState) (key : String) (dpr : Int)
        (st2 : ClientState) (msg : ObjPayload),
        textKeyDown st key dpr = (st2, some msg) →
        key = "Enter" ∧ st.textInput.trim ≠ "" ∧
          st.textPosition.1 ≠ 0 ∧ st.textPosition.2 ≠ 0) := by
  constructor
  · intro st dpr hzero
    rcases hzero with h0 | h0 <;> simp [textKeyDown, h0]
  · intro st key dpr st2 msg hcommit
    by_cases hcond : key = "Enter" ∧ st.textInput.trim ≠ "" ∧
        st.textPosition.1 ≠ 0 ∧ st.textPosition.2 ≠ 0
    · exact hcond
    · simp [textKeyDown, hcond] at hcommit

/-- Witness for C9: with a concrete pending text `"hi"` placed at x = 0,
Enter changes nothing and emits nothing. -/
theorem text_commit_requires_nonzero_position_witness :
    textKeyDown
        ⟨blankCanvas 800 600, [blankCanvas 800 600], "demo1", "#1e293b", 4,
          Tool.text, "hi", (0, 40), true⟩ "Enter" 1
      = (⟨blankCanvas 800 600, [blankCanvas 800 600], "demo1", "#1e293b", 4,
          Tool.text, "hi", (0, 40), true⟩, none) :=
  text_commit_requires_nonzero_position.1
    ⟨blankCanvas 800 600, [blankCanvas 800 600], "demo1", "#1e293b", 4,
      Tool.text, "hi", (0, 40), true⟩ 1 (Or.inl rfl)

theorem tail_append_singleton {α : Type} (l : List α) (a : α)
    (h : l ≠ []) : (l ++ [a]).tail = l.tail ++ [a] := by
  cases l with
  | nil => exact absurd rfl h
  | cons b t => rfl

theorem saveCanvasHist_one_le_length (h : List Canvas) (s : Canvas) :
    1 ≤ (saveCanvasHist h s).length := by
  simp only [saveCanvasHist]
  split
  · rename_i hgt
    rw [List.length_tail]
    simp only [List.length_append, List.length_singleton] at hgt ⊢
    omega
  · simp

theorem foldl_saveCanvasHist_eq_drop (l : List Canvas) :
    List.foldl saveCanvasHist [] l = l.drop (l.length - 30) := by
  induction l using List.reverseRecOn with
  | nil => rfl
  | append_singleton l a ih =>
    rw [List.foldl_append, List.foldl_cons, List.foldl_nil, ih]
    by_cases hn : l.length ≤ 29
    · have h0 : l.length - 30 = 0 := by omega
      have h1 : (l ++ [a]).length - 30 = 0 := by
        simp only [List.length_append, List.length_singleton]; omega
      rw [h0, h1, List.drop_zero, List.drop_zero]
      simp only [saveCanvasHist]
      have hle : ¬ ((l ++ [a]).length > 30) := by
        simp only [List.length_append, List.length_singleton]; omega
      rw [if_neg hle]
    · have hlen : (l.drop (l.length - 30)).length = 30 := by
        rw [List.length_drop]; omega
      have hne : l.drop (l.length - 30) ≠ [] := by
        intro hnil
        rw [hnil] at hlen
        simp at hlen
      simp only [saveCanvasHist]
      have hgt : (l.drop (l.length - 30) ++ [a]).length > 30 := by
        simp [hlen]
      simp only [hgt, if_pos]
      rw [tail_append_singleton _ _ hne, List.tail_drop]
      have harith : (l ++ [a]).length - 30 = (l.length - 30) + 1 := by
        simp only [List.length_append, List.length_singleton]; omega
      rw [harith, List.drop_append_of_le_length (by omega)]

theorem handleUndo_preserves_missing (s0 : Canvas) (st : ClientState)
    (hh : s0 ∉ st.history) (hc : st.canvas ≠ s0) :
    s0 ∉ (handleUndo st).history ∧ (handleUndo st).canvas ≠ s0 := by
  simp only [handleUndo]
  split
  · split
    · rename_i prev hget
      have hprev : prev ∈ st.history.dropLast :=
        List.mem_of_mem_getLast? hget
      refine ⟨fun hmem => hh ((List.dropLast_sublist _).subset hmem), ?_⟩
      intro heq
      exact hh ((List.dropLast_sublist _).subset (heq ▸ hprev))
    · exact ⟨fun hmem => hh ((List.dropLast_sublist _).subset hmem), hc⟩
  · exact ⟨hh, hc⟩

/-- C3: the snapshot history produced by any sequence of `saveCanvas` pushes
never exceeds 30 entries; a push onto a 30-entry history drops the oldest
entry and appends the new one (FIFO); 31 pushes starting from an empty
history leave exactly the last 30, so the first pushed snapshot is gone; and
a snapshot absent from the history and from the surface can never be brought
back by any number of undos. -/
theorem history_bounded_fifo :
    (∀ pushes : List Canvas,
        (List.foldl saveCanvasHist [] pushes).length ≤ 30) ∧
    (∀ (h : List Canvas) (s : Canvas), h.length = 30 →
        saveCanvasHist h s = h.tail ++ [s]) ∧
    (∀ pushes : List Canvas, pushes.length = 31 →
        List.foldl saveCanvasHist [] pushes = pushes.tail) ∧
    (∀ (s0 : Canvas) (st : ClientState),
        s0 ∉ st.history → st.canvas ≠ s0 →
        ∀ k, (handleUndo^[k] st).canvas ≠ s0) := by
  refine ⟨?_, ?_, ?_, ?_⟩
  · intro pushes
    rw [foldl_saveCanvasHist_eq_drop, List.length_drop]
    omega
  · intro h s hlen
    have hne : h ≠ [] := by
      intro hnil; rw [hnil] at hlen; simp at hlen
    simp only [saveCanvasHist]
    have hgt : (h ++ [s]).length > 30 := by simp [hlen]
    simp only [hgt, if_pos]
    exact tail_append_singleton _ _ hne
  · intro pushes hlen
    rw [foldl_saveCanvasHist_eq_drop, hlen]
    exact List.drop_one pushes
  · intro s0 st hh hc k
    have main : ∀ (k : Nat) (st : ClientState), s0 ∉ st.history →
        st.canvas ≠ s0 →
        s0 ∉ (handleUndo^[k] st).history ∧
          (handleUndo^[k] st).canvas ≠ s0 := by
      intro k
      induction k with
      | zero => intro st h1 h2; exact ⟨h1, h2⟩
      | succ n ih =>
        intro st h1 h2
        rw [Function.iterate_succ_apply]
        obtain ⟨h3, h4⟩ := handleUndo_preserves_missing s0 st h1 h2
        exact ih (handleUndo st) h3 h4
    exact (main k st hh hc).2

/-- Witness for C3: pushing 31 concrete pairwise-distinct snapshots onto an
empty history leaves exactly the last 30 (the first is evicted), and the
evicted snapshot is not reachable by undos from a state that does not hold
it. -/
theorem history_bounded_fifo_witness :
    List.foldl saveCanvasHist []
        ((List.range 31).map (fun i => Canvas.mk i 0 []))
      = ((List.range 31).map (fun i => Canvas.mk i 0 [])).tail ∧
    (handleUndo^[2]
        ⟨blankCanvas 1 1, [blankCanvas 1 1], "demo1", "#1e293b", 4,
          Tool.brush, "", (0, 0), false⟩).canvas ≠ Canvas.mk 9 9 [] :=
  ⟨history_bounded_fifo.2.2.1
      ((List.range 31).map (fun i => Canvas.mk i 0 [])) (by decide),
   history_bounded_fifo.2.2.2 (Canvas.mk 9 9 [])
      ⟨blankCanvas 1 1, [blankCanvas 1 1], "demo1", "#1e293b", 4,
        Tool.brush, "", (0, 0), false⟩ (by decide) (by decide) 2⟩

/-- C4: every history-touching operation of the client keeps the snapshot
history non-empty once it is non-empty (and `resizeCanvas`, which performs
the initialization push, makes its length exactly 1); the remote stroke and
text appliers do not touch the history at all; and an undo invoked with
exactly one snapshot present changes nothing — neither the history nor the
canvas. -/
theorem history_stays_nonempty_and_undo_bottom_noop :
    (∀ st : ClientState, 1 ≤ st.history.length →
        1 ≤ (handleUndo st).history.length ∧
        1 ≤ (saveCanvas st).history.length ∧
        1 ≤ ((clearBoard st).1).history.length ∧
        (∀ room, 1 ≤ (onClear room st).history.length) ∧
        (∀ key dpr, 1 ≤ ((textKeyDown st key dpr).1).history.length) ∧
        (∀ d, (handleRemoteStart st d).history = st.history ∧
            (handleRemoteDrawing st d).history = st.history ∧
            (handleRemoteEnd st d).history = st.history ∧
            (handleRemoteText st d).history = st.history)) ∧
    (∀ (w h : Nat) (st : ClientState),
        (resizeCanvas w h st).history.length = 1) ∧
    (∀ st : ClientState, st.history.length = 1 → handleUndo st = st) := by
  refine ⟨?_, ?_, ?_⟩
  · intro st hst
    refine ⟨?_, ?_, ?_, ?_, ?_, ?_⟩
    · simp only [handleUndo]
      split
      · rename_i hlen
        split <;>
          · simp only [List.length_dropLast]
            omega
      · exact hst
    · exact saveCanvasHist_one_le_length _ _
    · exact saveCanvasHist_one_le_length _ _
    · intro room
      simp only [onClear]
      split
      · exact saveCanvasHist_one_le_length _ _
      · exact hst
    · intro key dpr
      simp only [textKeyDown]
      split
      · exact saveCanvasHist_one_le_length _ _
      · exact hst
    · intro d
      refine ⟨?_, ?_, ?_, ?_⟩ <;>
        · cases d with
          | none => rfl
          | some data =>
            simp only [handleRemoteStart, handleRemoteDrawing,
              handleRemoteEnd, handleRemoteText]
            split <;> rfl
  · intro w h st
    rfl
  · intro st hst
    simp only [handleUndo]
    have : ¬ (1 < st.history.length) := by omega
    simp [this]

/-- Witness for C4: a concrete state with a single snapshot is left exactly
as it is by undo. -/
theorem history_stays_nonempty_witness :
    handleUndo
        ⟨blankCanvas 800 600, [blankCanvas 800 600], "demo1", "#1e293b", 4,
          Tool.brush, "", (0, 0), false⟩
      = ⟨blankCanvas 800 600, [blankCanvas 800 600], "demo1", "#1e293b", 4,
          Tool.brush, "", (0, 0), false⟩ :=
  history_stays_nonempty_and_undo_bottom_noop.2.2
    ⟨blankCanvas 800 600, [blankCanvas 800 600], "demo1", "#1e293b", 4,
      Tool.brush, "", (0, 0), false⟩ rfl

end WB
